import Mathlib

/-!
# MeshBluetoothService

A shallow embedding of `src/MeshBluetoothService.cpp`: the GATT characteristics
of the mesh bluetooth service (owner, radio, nodeinfo, fromRadio, fromNum) and
the service lifecycle functions, followed by theorems about them.

Conventions of the embedding

* A BLE characteristic value is a list of bytes (`List Nat`).
* A NUL-terminated `char` array is represented by its content (`CStr`).
* The protobuf codec (`pb_encode_to_bytes`, `pb_decode_from_bytes`, the
  generated `*_fields` descriptors and `*_size` constants) is not part of the
  sources that are embedded here; it is taken as a parameter (`Fields`,
  `SchemaSizes`).
* Calls that leave the module (`service.reloadOwner()`, `notify()`, ...) are
  recorded in an effect log, in call order.
* The keep-alive hook `BLEKeepAliveCallbacks::onRead/onWrite` belongs to power
  management and touches none of the state embedded here; it is logged where a
  log is kept and has no other effect.
-/

namespace MeshBluetoothService

/-! ## C strings -/

/-- Content of a NUL-terminated `char` array: the bytes that precede the
terminator, each a non-zero byte. -/
abbrev CStr := {l : List Nat // ∀ b ∈ l, 0 < b ∧ b < 256}

/-- The empty C string (the array starts with the terminator). -/
def CStr.empty : CStr := ⟨[], by simp⟩

/-- The first byte of the array, `*s` in C: zero exactly for the empty string. -/
def CStr.deref (s : CStr) : Nat := s.val.headD 0

/-- Byte-wise comparison `strcmp` on the contents of two NUL-terminated arrays
(the end of a content reads as the terminator 0): the difference of the first
pair of bytes that differ, 0 if there is none. -/
def strcmpBytes : List Nat → List Nat → Int
  | [], [] => 0
  | [], b :: _ => 0 - (b : Int)
  | a :: _, [] => (a : Int) - 0
  | a :: as, b :: bs => if a = b then strcmpBytes as bs else (a : Int) - (b : Int)

/-- C `strcmp(s1, s2)`. -/
def strcmp (s1 s2 : CStr) : Int := strcmpBytes s1.val s2.val

/-- C `strcpy(dst, src)`: the content of `dst` afterwards is that of `src`. -/
def strcpy (_dst src : CStr) : CStr := src

/-- Bit pattern of a C `int` (32-bit, twos-complement), as a natural number
below `2^32`. -/
def intBits (x : Int) : Nat := (x % 4294967296).toNat

/-! ## Protobuf codec (parameter) -/

/-- A message descriptor (`pb_msgdesc_t`, the generated `X_fields`) together
with what the two codec helpers do for that schema.

* `pb_encode_to_bytes destbufsize src` is the content that
  `pb_encode_to_bytes(destbuf, destbufsize, fields, src)` leaves in `destbuf`
  (its first `numbytes` bytes).
* `pb_decode_from_bytes srcbuf dest` is the result of
  `pb_decode_from_bytes(srcbuf, len, fields, dest)`: the success flag and the
  content of `*dest` afterwards (which may be partially written on failure). -/
structure Fields (α : Type) where
  pb_encode_to_bytes : Nat → α → List Nat
  pb_decode_from_bytes : List Nat → α → Bool × α

/-- The generated maximum encoded sizes (`X_size` in `mesh.pb.h`). -/
structure SchemaSizes where
  ToRadio_size : Nat
  RadioConfig_size : Nat
  User_size : Nat
  MyNodeInfo_size : Nat
  FromRadio_size : Nat
  NodeInfo_size : Nat
  deriving DecidableEq, Repr

/-- The Arduino macro `_max(a,b)`, `((a)>(b)?(a):(b))`. -/
def _max (a b : Nat) : Nat := if a > b then a else b

/-- Length of the scratch buffer, `sizeof(trBytes)`. -/
def trBytes_size (k : SchemaSizes) : Nat :=
  _max (_max (_max (_max k.ToRadio_size k.RadioConfig_size) k.User_size) k.MyNodeInfo_size)
    k.FromRadio_size

/-! ## ProtobufCharacteristic -/

/-- The `ProtobufCharacteristic::writeToDest` member: decode the written value
`src` into `dest`; returns the success flag and the new content of `dest`. -/
def ProtobufCharacteristic.writeToDest {α : Type} (fields : Fields α) (src : List Nat)
    (dest : α) : Bool × α :=
  fields.pb_decode_from_bytes src dest

/-- The `ProtobufCharacteristic::onRead` member: the value the characteristic
holds afterwards, the encoding of `my_struct` into `trBytes`. -/
def ProtobufCharacteristic.onRead {α : Type} (k : SchemaSizes) (fields : Fields α)
    (my_struct : α) : List Nat :=
  fields.pb_encode_to_bytes (trBytes_size k) my_struct

/-! ## OwnerCharacteristic -/

/-- The `User` record of `mesh.pb.h`, with the fields this module touches. -/
structure User where
  id : CStr
  long_name : CStr
  short_name : CStr
  macaddr : List Nat
  deriving DecidableEq

/-- What an owner write does outside the module, in call order. -/
inductive OwnerEffect where
  /-- The call `BLEKeepAliveCallbacks::onWrite(c)` -/
  | keepAlive
  /-- The call `service.reloadOwner()`, with the global `owner` at the time of the call -/
  | reloadOwner (owner : User)
  deriving DecidableEq

/-- The state an owner write works on: the global `owner`, the function-static
staging record `o`, and the log of effects. -/
structure OwnerState where
  owner : User
  o : User
  log : List OwnerEffect
  deriving DecidableEq

/-- The `OwnerCharacteristic::onWrite` member, for a written value `src`. -/
def OwnerCharacteristic.onWrite (User_fields : Fields User) (src : List Nat)
    (s : OwnerState) : OwnerState :=
  let log := s.log ++ [OwnerEffect.keepAlive]
  let r := ProtobufCharacteristic.writeToDest User_fields src s.o
  let o := r.2
  if r.1 then
    let owner := s.owner
    let changed : Nat := 0
    let (changed, owner) :=
      if o.long_name.deref ≠ 0 then
        (changed ||| intBits (strcmp owner.long_name o.long_name),
          { owner with long_name := strcpy owner.long_name o.long_name })
      else (changed, owner)
    let (changed, owner) :=
      if o.short_name.deref ≠ 0 then
        (changed ||| intBits (strcmp owner.short_name o.short_name),
          { owner with short_name := strcpy owner.short_name o.short_name })
      else (changed, owner)
    let (changed, owner) :=
      if o.id.deref ≠ 0 then
        (changed ||| intBits (strcmp owner.id o.id),
          { owner with id := strcpy owner.id o.id })
      else (changed, owner)
    if changed ≠ 0 then
      { owner := owner, o := o, log := log ++ [OwnerEffect.reloadOwner owner] }
    else
      { owner := owner, o := o, log := log }
  else
    { owner := s.owner, o := o, log := log }

/-- Number of `service.reloadOwner()` calls in a log. -/
def reloadOwnerCount (log : List OwnerEffect) : Nat :=
  (log.filter (fun e => match e with
    | OwnerEffect.reloadOwner _ => true
    | _ => false)).length

/-- Some non-empty staged field differs byte-for-byte from the canonical one. -/
def stagedDiffers (owner o : User) : Bool :=
  (decide (o.long_name.val ≠ []) && decide (owner.long_name ≠ o.long_name))
    || (decide (o.short_name.val ≠ []) && decide (owner.short_name ≠ o.short_name))
    || (decide (o.id.val ≠ []) && decide (owner.id ≠ o.id))

/-- The merge the owner channel is specified to perform: each of the three
fields takes the staged value when that is non-empty and keeps the canonical
value otherwise. -/
def mergedOwner (owner o : User) : User :=
  { id := if o.id.val = [] then owner.id else o.id
    long_name := if o.long_name.val = [] then owner.long_name else o.long_name
    short_name := if o.short_name.val = [] then owner.short_name else o.short_name
    macaddr := owner.macaddr }

/-- A codec for examples: encoding yields `bytes`, decoding reports `ok` and
leaves `u` in the destination. -/
def fixedFields {α : Type} (bytes : List Nat) (ok : Bool) (u : α) : Fields α :=
  { pb_encode_to_bytes := fun _ _ => bytes
    pb_decode_from_bytes := fun _ _ => (ok, u) }

/-- The C string "ABC". -/
def strABC : CStr := ⟨[65, 66, 67], by decide⟩

/-- The C string "X". -/
def strX : CStr := ⟨[88], by decide⟩

/-- An owner whose id is "ABC". -/
def ownerABC : User :=
  { id := strABC, long_name := ⟨[66, 111, 98], by decide⟩, short_name := ⟨[66], by decide⟩,
    macaddr := [1, 2, 3, 4, 5, 6] }

/-- The staged record `{id: "", long_name: "X", short_name: ""}`. -/
def stagedX : User :=
  { id := CStr.empty, long_name := strX, short_name := CStr.empty, macaddr := [] }

/-! ## RadioCharacteristic -/

/-- What a radio write does outside the module, in call order. -/
inductive RadioEffect (RadioConfig : Type) where
  /-- The call `BLEKeepAliveCallbacks::onWrite(c)` -/
  | keepAlive
  /-- The call `service.reloadConfig()`, with the global `radioConfig` at the time of the call -/
  | reloadConfig (radioConfig : RadioConfig)
  deriving DecidableEq

/-- The state a radio write works on: the global `radioConfig` and the log of
effects. -/
structure RadioState (RadioConfig : Type) where
  radioConfig : RadioConfig
  log : List (RadioEffect RadioConfig)

/-- The `ProtobufCharacteristic::onWrite` member: the content of `my_struct`
after `writeToDest(c, my_struct)` (the success flag is dropped). -/
def ProtobufCharacteristic.onWrite {α : Type} (fields : Fields α) (src : List Nat)
    (my_struct : α) : α :=
  (ProtobufCharacteristic.writeToDest fields src my_struct).2

/-- The `RadioCharacteristic::onWrite` member, for a written value `src`:
`ProtobufCharacteristic::onWrite(c)` (keep-alive, then decode into
`radioConfig`), then `service.reloadConfig()`. -/
def RadioCharacteristic.onWrite {RadioConfig : Type} (RadioConfig_fields : Fields RadioConfig)
    (src : List Nat) (s : RadioState RadioConfig) : RadioState RadioConfig :=
  let log := s.log ++ [RadioEffect.keepAlive]
  let radioConfig := ProtobufCharacteristic.onWrite RadioConfig_fields src s.radioConfig
  { radioConfig := radioConfig, log := log ++ [RadioEffect.reloadConfig radioConfig] }

/-- Number of `service.reloadConfig()` calls in a log. -/
def reloadConfigCount {RadioConfig : Type} (log : List (RadioEffect RadioConfig)) : Nat :=
  (log.filter (fun e => match e with
    | RadioEffect.reloadConfig _ => true
    | _ => false)).length

/-! ## NodeInfoCharacteristic -/

/-- Modelled from the spec: the node directory cursor of `NodeDB` (`NodeDB.h`
is not among the sources). A state machine over Start, Iterating(position) and
Exhausted. -/
inductive Cursor where
  | Start
  | Iterating (position : Nat)
  | Exhausted
  deriving DecidableEq, Repr

/-- Modelled from the spec: the part of `nodeDB` the nodeinfo channel uses, the
ordered node table and the cursor over it (`NodeDB.h` is not among the
sources). -/
structure NodeDB (NodeInfo : Type) where
  nodes : List NodeInfo
  cursor : Cursor

/-- Modelled from the spec: `NodeDB::resetReadPointer` (not among the sources):
"transitions to Iterating(0)". -/
def NodeDB.resetReadPointer {NodeInfo : Type} (db : NodeDB NodeInfo) : NodeDB NodeInfo :=
  { db with cursor := Cursor.Iterating 0 }

/-- Modelled from the spec: `NodeDB::readNextInfo` (not among the sources): "if
Iterating(k) and entry k exists, [yield] entry k, advance to Iterating(k+1); if
no entry k exists, transition to Exhausted and return [nothing]; subsequent
reads while Exhausted repeatedly return [nothing]". The cursor is "created at
zero", so Start reads like Iterating(0). -/
def NodeDB.readNextInfo {NodeInfo : Type} (db : NodeDB NodeInfo) :
    Option NodeInfo × NodeDB NodeInfo :=
  match db.cursor with
  | Cursor.Exhausted => (none, db)
  | Cursor.Start =>
    match db.nodes.get? 0 with
    | some info => (some info, { db with cursor := Cursor.Iterating 1 })
    | none => (none, { db with cursor := Cursor.Exhausted })
  | Cursor.Iterating k =>
    match db.nodes.get? k with
    | some info => (some info, { db with cursor := Cursor.Iterating (k + 1) })
    | none => (none, { db with cursor := Cursor.Exhausted })

/-- The `NodeInfoCharacteristic::onRead` member: the value set on the
characteristic, and `nodeDB` afterwards. -/
def NodeInfoCharacteristic.onRead {NodeInfo : Type} (k : SchemaSizes)
    (NodeInfo_fields : Fields NodeInfo) (nodeDB : NodeDB NodeInfo) :
    List Nat × NodeDB NodeInfo :=
  let r := nodeDB.readNextInfo
  match r.1 with
  | some info => (NodeInfo_fields.pb_encode_to_bytes (trBytes_size k) info, r.2)
  | none => ([], r.2)

/-- The `NodeInfoCharacteristic::onWrite` member: the written value `_src` is
not looked at. -/
def NodeInfoCharacteristic.onWrite {NodeInfo : Type} (_src : List Nat)
    (nodeDB : NodeDB NodeInfo) : NodeDB NodeInfo :=
  nodeDB.resetReadPointer

/-- The values returned by `n` consecutive reads of the nodeinfo channel, and
`nodeDB` afterwards. -/
def NodeInfoCharacteristic.reads {NodeInfo : Type} (k : SchemaSizes)
    (NodeInfo_fields : Fields NodeInfo) :
    Nat → NodeDB NodeInfo → List (List Nat) × NodeDB NodeInfo
  | 0, nodeDB => ([], nodeDB)
  | n + 1, nodeDB =>
    let r := NodeInfoCharacteristic.onRead k NodeInfo_fields nodeDB
    let rest := NodeInfoCharacteristic.reads k NodeInfo_fields n r.2
    (r.1 :: rest.1, rest.2)

/-! ## FromRadioCharacteristic -/

/-- The `FromRadio` envelope of `mesh.pb.h`: the variant tag and the packet
variant. -/
structure FromRadio (MeshPacket : Type) where
  which_variant : Nat
  packet : MeshPacket
  deriving DecidableEq

/-- Modelled from the spec: the part of the mesh `service` the fromRadio channel
uses (`MeshService.h` is not among the sources): the outbound queue, in
admission order, and the packets handed back to the reuse pool. -/
structure MeshService (MeshPacket : Type) where
  toPhoneQueue : List MeshPacket
  released : List MeshPacket

/-- Modelled from the spec: `MeshService::getForPhone` (not among the sources):
"if the queue is non-empty, pop ... the head packet", else nothing. -/
def MeshService.getForPhone {MeshPacket : Type} (service : MeshService MeshPacket) :
    Option MeshPacket × MeshService MeshPacket :=
  match service.toPhoneQueue with
  | [] => (none, service)
  | mp :: rest => (some mp, { service with toPhoneQueue := rest })

/-- Modelled from the spec: `MeshService::releaseToPool` (not among the
sources): "the backing packet object may be returned to a reuse pool". -/
def MeshService.releaseToPool {MeshPacket : Type} (mp : MeshPacket)
    (service : MeshService MeshPacket) : MeshService MeshPacket :=
  { service with released := service.released ++ [mp] }

/-- The `FromRadioCharacteristic::onRead` member: the value set on the
characteristic, and `service` afterwards. -/
def FromRadioCharacteristic.onRead {MeshPacket : Type} (k : SchemaSizes)
    (FromRadio_packet_tag : Nat) (FromRadio_fields : Fields (FromRadio MeshPacket))
    (service : MeshService MeshPacket) : List Nat × MeshService MeshPacket :=
  let r := service.getForPhone
  match r.1 with
  | none => ([], r.2)
  | some mp =>
    let fRadio : FromRadio MeshPacket := { which_variant := FromRadio_packet_tag, packet := mp }
    let service := r.2.releaseToPool mp
    (FromRadio_fields.pb_encode_to_bytes (trBytes_size k) fRadio, service)

/-- The values returned by `n` consecutive reads of the fromRadio channel, and
`service` afterwards. -/
def FromRadioCharacteristic.reads {MeshPacket : Type} (k : SchemaSizes)
    (FromRadio_packet_tag : Nat) (FromRadio_fields : Fields (FromRadio MeshPacket)) :
    Nat → MeshService MeshPacket → List (List Nat) × MeshService MeshPacket
  | 0, service => ([], service)
  | n + 1, service =>
    let r := FromRadioCharacteristic.onRead k FromRadio_packet_tag FromRadio_fields service
    let rest := FromRadioCharacteristic.reads k FromRadio_packet_tag FromRadio_fields n r.2
    (r.1 :: rest.1, rest.2)

/-! ## FromNumCharacteristic and the service lifecycle -/

/-- A `BLECharacteristic` object of the BLE library: the value it holds. A GATT
read runs the `onRead` callback and then returns the value; a GATT write stores
the written bytes as the value and then runs the `onWrite` callback. -/
structure BLECharacteristic where
  value : List Nat
  deriving DecidableEq, Repr

/-- The four bytes of a `uint32_t`, least significant first. -/
def le32 (v : Nat) : List Nat :=
  [v % 256, v / 256 % 256, v / 65536 % 256, v / 16777216 % 256]

/-- The method `BLECharacteristic::setValue(uint32_t&)` of the BLE library. -/
def BLECharacteristic.setValue32 (data32 : Nat) (_c : BLECharacteristic) : BLECharacteristic :=
  { value := le32 data32 }

/-- The expression `new FromNumCharacteristic`: a characteristic that holds no
value yet. -/
def FromNumCharacteristic.new : BLECharacteristic := { value := [] }

/-- The `FromNumCharacteristic::onRead` member: the keep-alive hook and a debug
message ("FIXME implement fromnum read"); no value is set. -/
def FromNumCharacteristic.onRead (c : BLECharacteristic) : BLECharacteristic := c

/-- The class `FromNumCharacteristic` declares no `onWrite`: a write runs the inherited
`BLEKeepAliveCallbacks::onWrite`, the keep-alive hook. -/
def FromNumCharacteristic.onWrite (c : BLECharacteristic) : BLECharacteristic := c

/-- A `BLEService` object: the descriptions of the characteristics added to it,
whether it is started, and whether it has been deleted. -/
structure BLEService where
  characteristics : List String
  started : Bool
  deleted : Bool
  deriving DecidableEq, Repr

/-- The globals of the module and what it sent out: the pointer
`meshFromNumCharacteristic` (`none` is `NULL`) with the object it points to, the
pointer `meshService` with its object, the function-static `firstTime`, the
number of `addServiceUUID` calls, and the values sent by `notify()`, in order. -/
structure BtState where
  meshFromNumCharacteristic : Option BLECharacteristic
  meshService : Option BLEService
  firstTime : Bool
  advertised : Nat
  notifications : List (List Nat)
  deriving DecidableEq, Repr

/-- The state at boot: both pointers `NULL`, `firstTime` true. -/
def BtState.boot : BtState :=
  { meshFromNumCharacteristic := none, meshService := none, firstTime := true,
    advertised := 0, notifications := [] }

/-- The function `bluetoothNotifyFromNum(newValue)`. -/
def bluetoothNotifyFromNum (newValue : Nat) (s : BtState) : BtState :=
  match s.meshFromNumCharacteristic with
  | some c =>
    let c := c.setValue32 newValue
    { s with meshFromNumCharacteristic := some c, notifications := s.notifications ++ [c.value] }
  | none => s

/-- The function `createMeshBluetoothService(server)`; `none` when the
assertion fails. -/
def createMeshBluetoothService (s : BtState) : Option BtState :=
  if s.meshFromNumCharacteristic.isSome then none
  else
    let c := FromNumCharacteristic.new
    let service : BLEService :=
      { characteristics :=
          ["fromRadio", "toRadio", "fromNum", "myNode", "radio", "owner", "nodeinfo"],
        started := true, deleted := false }
    some
      { meshFromNumCharacteristic := some c
        meshService := some service
        firstTime := false
        advertised := if s.firstTime then s.advertised + 1 else s.advertised
        notifications := s.notifications }

/-- The function `destroyMeshBluetoothService()`; `none` when the assertion
fails. The pointer `meshService` is left as it is by `delete`. -/
def destroyMeshBluetoothService (s : BtState) : Option BtState :=
  match s.meshService with
  | none => none
  | some service =>
    some { s with meshService := some { service with deleted := true },
                  meshFromNumCharacteristic := none }

/-- The function `stopMeshBluetoothService()`. -/
def stopMeshBluetoothService (s : BtState) : BtState :=
  let meshService :=
    match s.meshService with
    | some service => some { service with started := false }
    | none => none
  { s with meshService := meshService, meshFromNumCharacteristic := none }

/-- A call into the lifecycle interface of the module. -/
inductive Call where
  | create
  | stop
  | destroy
  | notify (newValue : Nat)
  deriving DecidableEq, Repr

/-- One call; `none` when an assertion fails. -/
def Call.step : Call → BtState → Option BtState
  | Call.create, s => createMeshBluetoothService s
  | Call.stop, s => some (stopMeshBluetoothService s)
  | Call.destroy, s => destroyMeshBluetoothService s
  | Call.notify v, s => some (bluetoothNotifyFromNum v s)

/-- A sequence of calls, from state `s`; `none` when an assertion fails. -/
def run : List Call → BtState → Option BtState
  | [], s => some s
  | c :: cs, s =>
    match c.step s with
    | some s1 => run cs s1
    | none => none

/-- The fromNum and fromRadio channels of one device: the fromNum
characteristic object and the mesh `service`. -/
structure Device (MeshPacket : Type) where
  fromNum : BLECharacteristic
  service : MeshService MeshPacket

/-- A GATT read of the fromNum channel: the value returned, and the device
afterwards. -/
def Device.readFromNum {MeshPacket : Type} (d : Device MeshPacket) :
    List Nat × Device MeshPacket :=
  let c := FromNumCharacteristic.onRead d.fromNum
  (c.value, { d with fromNum := c })

/-- A GATT write of `value` to the fromNum channel. -/
def Device.writeFromNum {MeshPacket : Type} (value : List Nat) (d : Device MeshPacket) :
    Device MeshPacket :=
  { d with fromNum := FromNumCharacteristic.onWrite { value := value } }

/-- A GATT read of the fromRadio channel: the value returned, and the device
afterwards. -/
def Device.readFromRadio {MeshPacket : Type} (k : SchemaSizes) (FromRadio_packet_tag : Nat)
    (FromRadio_fields : Fields (FromRadio MeshPacket)) (d : Device MeshPacket) :
    List Nat × Device MeshPacket :=
  let r := FromRadioCharacteristic.onRead k FromRadio_packet_tag FromRadio_fields d.service
  (r.1, { d with service := r.2 })

/-- The packet the fromNum documentation promises after a write of `v`: with
the queue holding the packets numbered `first`, `first + 1`, ... in order, the
one with the smallest number that is at least `v`. -/
def packetAtOrAfter {MeshPacket : Type} (first v : Nat) (queue : List MeshPacket) :
    Option MeshPacket :=
  queue.get? (v - first)

/-- An encoder for examples, with packets that are numbers: the variant tag
followed by the packet; decoding always fails. -/
def tagThenPacket : Fields (FromRadio Nat) :=
  { pb_encode_to_bytes := fun _ fr => [fr.which_variant, fr.packet]
    pb_decode_from_bytes := fun _ dest => (false, dest) }

/-- Schema sizes for examples, with `NodeInfo_size` the largest. -/
def sizesNodeInfoLargest : SchemaSizes :=
  { ToRadio_size := 80, RadioConfig_size := 40, User_size := 72, MyNodeInfo_size := 20,
    FromRadio_size := 80, NodeInfo_size := 120 }

/-- An owner state for examples: canonical owner with id "ABC", empty log. -/
def ownerStateABC : OwnerState :=
  { owner := ownerABC, o := stagedX, log := [] }

/-- An owner state for examples whose staging record repeats the canonical
values. -/
def ownerStateSame : OwnerState :=
  { owner := ownerABC, o := ownerABC, log := [] }

theorem CStr.deref_eq_zero_iff (s : CStr) : s.deref = 0 ↔ s.val = [] := by
  obtain ⟨l, hl⟩ := s
  cases l with
  | nil => simp [CStr.deref]
  | cons a t =>
    have := (hl a (by simp)).1
    simp [CStr.deref]
    omega

theorem strcmpBytes_eq_zero_iff :
    ∀ (a b : List Nat), (∀ x ∈ a, 0 < x) → (∀ x ∈ b, 0 < x) →
      (strcmpBytes a b = 0 ↔ a = b)
  | [], [], _, _ => by simp [strcmpBytes]
  | [], b :: bs, _, hb => by
    have := hb b (by simp)
    simp [strcmpBytes]
    omega
  | a :: as, [], ha, _ => by
    have := ha a (by simp)
    simp [strcmpBytes]
    omega
  | a :: as, b :: bs, ha, hb => by
    by_cases h : a = b
    · subst h
      have ih := strcmpBytes_eq_zero_iff as bs (fun x hx => ha x (by simp [hx]))
        (fun x hx => hb x (by simp [hx]))
      simp [strcmpBytes, ih]
    · simp [strcmpBytes, h]
      omega

theorem strcmpBytes_bound :
    ∀ (a b : List Nat), (∀ x ∈ a, x < 256) → (∀ x ∈ b, x < 256) →
      -256 < strcmpBytes a b ∧ strcmpBytes a b < 256
  | [], [], _, _ => by simp [strcmpBytes]
  | [], b :: bs, _, hb => by
    have := hb b (by simp)
    simp [strcmpBytes]
    omega
  | a :: as, [], ha, _ => by
    have := ha a (by simp)
    simp [strcmpBytes]
    omega
  | a :: as, b :: bs, ha, hb => by
    have h1 := ha a (by simp)
    have h2 := hb b (by simp)
    by_cases h : a = b
    · subst h
      have ih := strcmpBytes_bound as bs (fun x hx => ha x (by simp [hx]))
        (fun x hx => hb x (by simp [hx]))
      simpa [strcmpBytes] using ih
    · simp only [strcmpBytes, h, if_false]
      omega

theorem strcmp_eq_zero_iff (a b : CStr) : strcmp a b = 0 ↔ a = b := by
  unfold strcmp
  rw [strcmpBytes_eq_zero_iff a.val b.val (fun x hx => (a.property x hx).1)
    (fun x hx => (b.property x hx).1)]
  exact Subtype.ext_iff.symm

theorem intBits_strcmp_eq_zero_iff (a b : CStr) : intBits (strcmp a b) = 0 ↔ a = b := by
  rw [← strcmp_eq_zero_iff]
  have hb := strcmpBytes_bound a.val b.val (fun x hx => (a.property x hx).2)
    (fun x hx => (b.property x hx).2)
  unfold intBits
  change _ ↔ strcmp a b = 0
  have hs : strcmp a b = strcmpBytes a.val b.val := rfl
  rw [hs]
  omega

theorem lor_eq_zero_iff (a b : Nat) : a ||| b = 0 ↔ a = 0 ∧ b = 0 := by
  constructor
  · intro h
    have ht : ∀ i, (a ||| b).testBit i = false := by simp [h]
    constructor
    · apply Nat.eq_of_testBit_eq
      intro i
      have := ht i
      simp [Nat.testBit_or] at this
      simp [this.1]
    · apply Nat.eq_of_testBit_eq
      intro i
      have := ht i
      simp [Nat.testBit_or] at this
      simp [this.2]
  · rintro ⟨rfl, rfl⟩
    simp

/-! ## Owner merge -/

/-- The byte `*s` is non-zero exactly when the content is non-empty. -/
theorem CStr.deref_ne_zero_iff (s : CStr) : s.deref ≠ 0 ↔ s.val ≠ [] :=
  not_congr (CStr.deref_eq_zero_iff s)

/-- The state after an owner write that decodes into the staged record `o`:
the merged owner, and a log that grows by the keep-alive and by one
`reloadOwner` exactly when a non-empty staged field differs. -/
theorem OwnerCharacteristic.onWrite_ok (User_fields : Fields User) (src : List Nat)
    (s : OwnerState) (o : User)
    (h : ProtobufCharacteristic.writeToDest User_fields src s.o = (true, o)) :
    OwnerCharacteristic.onWrite User_fields src s =
      { owner := mergedOwner s.owner o
        o := o
        log := s.log ++ OwnerEffect.keepAlive ::
          (if stagedDiffers s.owner o then [OwnerEffect.reloadOwner (mergedOwner s.owner o)]
            else []) } := by
  obtain ⟨owner, o0, log⟩ := s
  obtain ⟨oid, olong, oshort, omac⟩ := o
  obtain ⟨cid, clong, cshort, cmac⟩ := owner
  simp only at h
  unfold OwnerCharacteristic.onWrite stagedDiffers mergedOwner
  simp only [h, if_true, CStr.deref_ne_zero_iff]
  by_cases h1 : olong.val = [] <;> by_cases h2 : oshort.val = [] <;>
  by_cases h3 : oid.val = [] <;>
  by_cases e1 : clong = olong <;> by_cases e2 : cshort = oshort <;>
  by_cases e3 : cid = oid <;>
  simp [h1, h2, h3, e1, e2, e3, strcpy, lor_eq_zero_iff, intBits_strcmp_eq_zero_iff]

theorem reloadOwnerCount_append (l1 l2 : List OwnerEffect) :
    reloadOwnerCount (l1 ++ l2) = reloadOwnerCount l1 + reloadOwnerCount l2 := by
  simp [reloadOwnerCount]

/-- The state after an owner write whose decode fails: only the staging record
and the keep-alive entry of the log are new. -/
theorem OwnerCharacteristic.onWrite_fail (User_fields : Fields User) (src : List Nat)
    (s : OwnerState)
    (h : (ProtobufCharacteristic.writeToDest User_fields src s.o).1 = false) :
    OwnerCharacteristic.onWrite User_fields src s =
      { owner := s.owner
        o := (ProtobufCharacteristic.writeToDest User_fields src s.o).2
        log := s.log ++ [OwnerEffect.keepAlive] } := by
  unfold OwnerCharacteristic.onWrite
  simp [h]

/-- C1: after an owner write whose payload decodes into the staged record `o`,
each of the canonical fields long_name, short_name and id equals the staged
value when that is non-empty, and its value before the write when the staged
value is empty. -/
theorem owner_write_merges_fields (User_fields : Fields User) (src : List Nat)
    (s : OwnerState)
    (h : (ProtobufCharacteristic.writeToDest User_fields src s.o).1 = true) :
    ((OwnerCharacteristic.onWrite User_fields src s).owner.long_name =
        if (ProtobufCharacteristic.writeToDest User_fields src s.o).2.long_name.val ≠ []
        then (ProtobufCharacteristic.writeToDest User_fields src s.o).2.long_name
        else s.owner.long_name) ∧
    ((OwnerCharacteristic.onWrite User_fields src s).owner.short_name =
        if (ProtobufCharacteristic.writeToDest User_fields src s.o).2.short_name.val ≠ []
        then (ProtobufCharacteristic.writeToDest User_fields src s.o).2.short_name
        else s.owner.short_name) ∧
    ((OwnerCharacteristic.onWrite User_fields src s).owner.id =
        if (ProtobufCharacteristic.writeToDest User_fields src s.o).2.id.val ≠ []
        then (ProtobufCharacteristic.writeToDest User_fields src s.o).2.id
        else s.owner.id) := by
  have hr : ProtobufCharacteristic.writeToDest User_fields src s.o =
      (true, (ProtobufCharacteristic.writeToDest User_fields src s.o).2) := by
    rw [← h]
  rw [OwnerCharacteristic.onWrite_ok User_fields src s _ hr]
  simp only [mergedOwner, ne_eq, ite_not, and_self]

/-- Witness of C1, the example of the specification: writing
`{id: "", long_name: "X", short_name: ""}` when the canonical id is "ABC". -/
theorem owner_write_merges_fields_witness :
    (ProtobufCharacteristic.writeToDest (fixedFields [] true stagedX) [1] ownerStateABC.o).1 = true
    ∧ (OwnerCharacteristic.onWrite (fixedFields [] true stagedX) [1] ownerStateABC).owner.id
        = strABC
    ∧ (OwnerCharacteristic.onWrite (fixedFields [] true stagedX) [1] ownerStateABC).owner.long_name
        = strX :=
  ⟨rfl,
    (owner_write_merges_fields (fixedFields [] true stagedX) [1] ownerStateABC rfl).2.2.trans
      (by decide),
    (owner_write_merges_fields (fixedFields [] true stagedX) [1] ownerStateABC rfl).1.trans
      (by decide)⟩

/-- C2: an owner write whose payload decodes calls `service.reloadOwner()`
exactly once when some non-empty staged field differs byte-for-byte from the
canonical field before the write, and not at all otherwise. -/
theorem owner_write_reloads_iff_differs (User_fields : Fields User) (src : List Nat)
    (s : OwnerState)
    (h : (ProtobufCharacteristic.writeToDest User_fields src s.o).1 = true) :
    reloadOwnerCount (OwnerCharacteristic.onWrite User_fields src s).log =
      reloadOwnerCount s.log +
        (if stagedDiffers s.owner (ProtobufCharacteristic.writeToDest User_fields src s.o).2
          then 1 else 0) := by
  have hr : ProtobufCharacteristic.writeToDest User_fields src s.o =
      (true, (ProtobufCharacteristic.writeToDest User_fields src s.o).2) := by
    rw [← h]
  rw [OwnerCharacteristic.onWrite_ok User_fields src s _ hr]
  simp only [reloadOwnerCount_append]
  split <;> simp [reloadOwnerCount]

/-- Witness of C2: writing a changed long_name ("X") triggers exactly one
`reloadOwner`. -/
theorem owner_write_reloads_iff_differs_witness :
    (ProtobufCharacteristic.writeToDest (fixedFields [] true stagedX) [1] ownerStateABC.o).1 = true
    ∧ reloadOwnerCount
        (OwnerCharacteristic.onWrite (fixedFields [] true stagedX) [1] ownerStateABC).log = 1 :=
  ⟨rfl,
    (owner_write_reloads_iff_differs (fixedFields [] true stagedX) [1] ownerStateABC rfl).trans
      (by decide)⟩

/-- Writing values identical to the current ones triggers no `reloadOwner` and
leaves the owner as it is. -/
theorem owner_write_identical_values :
    OwnerCharacteristic.onWrite (fixedFields [] true ownerABC) [1] ownerStateSame
      = { owner := ownerABC, o := ownerABC, log := [OwnerEffect.keepAlive] } := by
  decide

/-- C3: an owner write whose payload fails to decode leaves the canonical owner
as it was and calls `service.reloadOwner()` not at all, whatever the failed
decode left in the staging record. -/
theorem owner_write_decode_failure (User_fields : Fields User) (src : List Nat)
    (s : OwnerState)
    (h : (ProtobufCharacteristic.writeToDest User_fields src s.o).1 = false) :
    (OwnerCharacteristic.onWrite User_fields src s).owner = s.owner ∧
    (OwnerCharacteristic.onWrite User_fields src s).log = s.log ++ [OwnerEffect.keepAlive] ∧
    reloadOwnerCount (OwnerCharacteristic.onWrite User_fields src s).log
      = reloadOwnerCount s.log := by
  rw [OwnerCharacteristic.onWrite_fail User_fields src s h]
  simp [reloadOwnerCount]

/-- Witness of C3: a failed decode that left "X" in the staged long_name. -/
theorem owner_write_decode_failure_witness :
    (ProtobufCharacteristic.writeToDest (fixedFields [] false stagedX) [1] ownerStateABC.o).1
      = false
    ∧ (OwnerCharacteristic.onWrite (fixedFields [] false stagedX) [1] ownerStateABC).owner
        = ownerABC
    ∧ reloadOwnerCount
        (OwnerCharacteristic.onWrite (fixedFields [] false stagedX) [1] ownerStateABC).log = 0 :=
  ⟨rfl,
    (owner_write_decode_failure (fixedFields [] false stagedX) [1] ownerStateABC rfl).1,
    (owner_write_decode_failure (fixedFields [] false stagedX) [1] ownerStateABC rfl).2.2⟩

/-! ## Config reload -/

/-- C6: a radio write decodes the payload into the canonical `radioConfig` and
then calls `service.reloadConfig()` exactly once: the record afterwards is what
the decode left in it, and the one reload signal sees that record. -/
theorem radio_write_decodes_then_reloads {RadioConfig : Type}
    (RadioConfig_fields : Fields RadioConfig) (src : List Nat) (s : RadioState RadioConfig) :
    (RadioCharacteristic.onWrite RadioConfig_fields src s).radioConfig
      = (RadioConfig_fields.pb_decode_from_bytes src s.radioConfig).2 ∧
    (RadioCharacteristic.onWrite RadioConfig_fields src s).log
      = s.log ++ [RadioEffect.keepAlive,
          RadioEffect.reloadConfig (RadioConfig_fields.pb_decode_from_bytes src s.radioConfig).2] ∧
    reloadConfigCount (RadioCharacteristic.onWrite RadioConfig_fields src s).log
      = reloadConfigCount s.log + 1 := by
  simp [RadioCharacteristic.onWrite, ProtobufCharacteristic.onWrite,
    ProtobufCharacteristic.writeToDest, reloadConfigCount]

/-! ## Packet mailbox -/

/-- C4: with the outbound queue holding P1..Pn in admission order, `m`
consecutive reads of the fromRadio channel return the serializations of the
envelopes (live-packet tag, Pi) of the first `m` packets in order, then a
zero-length value for each read past the n-th; each read that returns a packet
pops the head, so the queue afterwards is what is left after `m` packets, and
is empty from the n-th read on. -/
theorem fromRadio_reads_in_order {MeshPacket : Type} (k : SchemaSizes)
    (FromRadio_packet_tag : Nat) (FromRadio_fields : Fields (FromRadio MeshPacket))
    (m : Nat) (service : MeshService MeshPacket) :
    (FromRadioCharacteristic.reads k FromRadio_packet_tag FromRadio_fields m service).1
      = (service.toPhoneQueue.take m).map (fun mp =>
          FromRadio_fields.pb_encode_to_bytes (trBytes_size k)
            { which_variant := FromRadio_packet_tag, packet := mp })
        ++ List.replicate (m - service.toPhoneQueue.length) [] ∧
    (FromRadioCharacteristic.reads k FromRadio_packet_tag FromRadio_fields m service).2.toPhoneQueue
      = service.toPhoneQueue.drop m := by
  induction m generalizing service with
  | zero => simp [FromRadioCharacteristic.reads]
  | succ m ih =>
    obtain ⟨queue, released⟩ := service
    cases queue with
    | nil =>
      have := ih { toPhoneQueue := [], released := released }
      simp only [List.take_nil, List.map_nil, List.length_nil, Nat.sub_zero, List.nil_append,
        List.drop_nil] at this
      simp [FromRadioCharacteristic.reads, FromRadioCharacteristic.onRead,
        MeshService.getForPhone, this, List.replicate_succ]
    | cons mp rest =>
      have := ih { toPhoneQueue := rest, released := released ++ [mp] }
      simp only at this
      simp [FromRadioCharacteristic.reads, FromRadioCharacteristic.onRead,
        MeshService.getForPhone, MeshService.releaseToPool, this]

/-! ## Node directory -/

/-- A read of the fromNum channel returns the value the characteristic already
holds: the read handler sets none. -/
theorem Device.readFromNum_value {MeshPacket : Type} (d : Device MeshPacket) :
    d.readFromNum = (d.fromNum.value, d) := rfl

/-- A write to the fromNum channel leaves the outbound queue as it is. -/
theorem Device.writeFromNum_service {MeshPacket : Type} (value : List Nat)
    (d : Device MeshPacket) : (d.writeFromNum value).service = d.service := rfl

/-- C7: on a freshly created service the fromNum characteristic holds no value,
and the read handler sets none, so a read returns zero bytes and not the four
bytes of the counter: both right after the first create (counter 0) and after
a destroy and create that follow the notification of counter value 3. -/
theorem fromNum_read_on_fresh_service :
    ((run [Call.create] BtState.boot).bind (fun s => s.meshFromNumCharacteristic)).map
        (fun c => (FromNumCharacteristic.onRead c).value) = some [] ∧
    le32 0 ≠ [] ∧
    ((run [Call.create, Call.notify 3, Call.destroy, Call.create] BtState.boot).bind
        (fun s => s.meshFromNumCharacteristic)).map
        (fun c => (FromNumCharacteristic.onRead c).value) = some [] ∧
    ((run [Call.create, Call.notify 3] BtState.boot).bind
        (fun s => s.meshFromNumCharacteristic)).map
        (fun c => (FromNumCharacteristic.onRead c).value) = some (le32 3) ∧
    le32 3 ≠ [] := by
  decide

/-- C8: with the packets numbered 1 and 2 (101 and 102) in the outbound queue, a
write of 2 to the fromNum channel followed by a read of the fromRadio channel
returns packet 1, the head of the queue, where the documented rewind names
packet 2. -/
theorem fromNum_write_does_not_rewind :
    (Device.readFromRadio sizesNodeInfoLargest 1 tagThenPacket
        (Device.writeFromNum (le32 2)
          { fromNum := { value := le32 2 },
            service := { toPhoneQueue := [101, 102], released := [] } })).1 = [1, 101] ∧
    packetAtOrAfter 1 2 [101, 102] = some 102 ∧
    tagThenPacket.pb_encode_to_bytes (trBytes_size sizesNodeInfoLargest)
        { which_variant := 1, packet := 102 } = [1, 102] := by
  decide

/-! ## Scratch buffer -/

/-- The scratch buffer is at least as long as each of the five sizes that its
declaration lists. -/
theorem trBytes_size_ge_listed (k : SchemaSizes) :
    k.ToRadio_size ≤ trBytes_size k ∧ k.RadioConfig_size ≤ trBytes_size k ∧
    k.User_size ≤ trBytes_size k ∧ k.MyNodeInfo_size ≤ trBytes_size k ∧
    k.FromRadio_size ≤ trBytes_size k := by
  unfold trBytes_size _max
  refine ⟨?_, ?_, ?_, ?_, ?_⟩ <;> (repeat' split) <;> omega

/-- The scratch buffer is exactly as long as the largest of the five sizes that
its declaration lists, whatever `NodeInfo_size` is. -/
theorem trBytes_size_eq_max (k : SchemaSizes) :
    trBytes_size k = max (max (max (max k.ToRadio_size k.RadioConfig_size) k.User_size)
      k.MyNodeInfo_size) k.FromRadio_size := by
  unfold trBytes_size _max
  (repeat' split) <;> omega

/-- C9: with `NodeInfo_size` the largest of the schema sizes (120, the others at
most 80), the scratch buffer is 80 bytes long, shorter than a `NodeInfo`
record may encode to, and the nodeinfo channel encodes into it with that
length as the limit. -/
theorem trBytes_size_omits_NodeInfo :
    trBytes_size sizesNodeInfoLargest = 80 ∧
    trBytes_size sizesNodeInfoLargest < sizesNodeInfoLargest.NodeInfo_size ∧
    (NodeInfoCharacteristic.onRead sizesNodeInfoLargest
        { pb_encode_to_bytes := fun destbufsize (_ : Nat) => [destbufsize]
          pb_decode_from_bytes := fun _ dest => (false, dest) }
        { nodes := [7], cursor := Cursor.Iterating 0 }).1 = [80] := by
  decide

/-! ## Service lifecycle -/

end MeshBluetoothService
